import Mathlib

/-!
Shallow embedding of `src/main.py` (fitness planner) and verification of its
specification claims.  Python floats are modelled as rationals (ℚ); Python
strings used as text blobs are modelled as lists of Unicode code points
(`List ℕ`), which is exactly Python's view of `str` for `re` matching.
-/

namespace Workout

/-! ## Definitions (the embedding of `src/main.py`) -/

/-- Python's builtin `round(x)` / `round(x, 0)`: round half to even
(banker's rounding), producing an integer. -/
def pyRoundInt (q : ℚ) : ℤ :=
  if q - ⌊q⌋ < 1/2 then ⌊q⌋
  else if 1/2 < q - ⌊q⌋ then ⌊q⌋ + 1
  else if ⌊q⌋ % 2 = 0 then ⌊q⌋ else ⌊q⌋ + 1

/-- Python's `round(x, 0)` returns a float; we keep the value in ℚ. -/
def pyRound (q : ℚ) : ℚ := (pyRoundInt q : ℚ)

/-- The `ACTIVITY_FACTORS` dict of `src/main.py` (insertion order kept). -/
def ACTIVITY_FACTORS : List (String × ℚ) :=
  [("좌식/운동 거의 안함", 1.2),
   ("가벼운 활동(주 1-3회)", 1.375),
   ("보통 활동(주 3-5회)", 1.55),
   ("높은 활동(주 6-7회)", 1.725),
   ("매우 높음(육체노동/2회훈련)", 1.9)]

/-- The `GOAL_MAP` dict of `src/main.py`. -/
def GOAL_MAP : List (String × ℚ) :=
  [("다이어트(감량)", -500), ("유지", 0), ("벌크업(증량)", 500)]

/-- The `SEX_PROTEIN_RULE` dict of `src/main.py`: sex → (low, high) g/kg. -/
def SEX_PROTEIN_RULE : List (String × (ℚ × ℚ)) :=
  [("남성", (1.5, 2.0)), ("여성", (1.2, 1.5))]

/-- `mifflin_st_jeor` from `src/main.py`: the `else` branch covers every
string other than "남성", exactly as the Python `if/else` does. -/
def mifflin_st_jeor (sex : String) (weight_kg height_cm age : ℚ) : ℚ :=
  if sex = "남성" then 10 * weight_kg + 6.25 * height_cm - 5 * age + 5
  else 10 * weight_kg + 6.25 * height_cm - 5 * age - 161

/-- `tdee_from_activity` from `src/main.py`:
`bmr * ACTIVITY_FACTORS.get(activity_label, 1.55)`. -/
def tdee_from_activity (bmr : ℚ) (activity_label : String) : ℚ :=
  bmr * ((ACTIVITY_FACTORS.lookup activity_label).getD 1.55)

/-- Python truthiness choice `p if p else dflt` for an optional float:
`None` and `0.0` both fall back to the default. -/
def truthyOr (p : Option ℚ) (dflt : ℚ) : ℚ :=
  match p with
  | some x => if x ≠ 0 then x else dflt
  | none => dflt

/-- The dict returned by `plan_macros` in `src/main.py`. -/
structure MacroPlan where
  target_kcal : ℚ
  protein_g : ℚ
  fat_g : ℚ
  carb_g : ℚ
  fat_ratio : ℚ
  protein_per_kg : ℚ
deriving DecidableEq, Repr

/-- `plan_macros` from `src/main.py`.  `SEX_PROTEIN_RULE[sex]` raises
`KeyError` for an unknown sex, modelled by `none`; the Python truthiness
test `protein_per_kg if protein_per_kg else low` is `truthyOr`. -/
def plan_macros (tdee : ℚ) (goal_label sex : String) (weight_kg : ℚ)
    (fat_ratio : ℚ := 0.20) (protein_per_kg : Option ℚ := none) :
    Option MacroPlan :=
  let goal_delta := (GOAL_MAP.lookup goal_label).getD 0
  let target_kcal := max 1000 (tdee + goal_delta)
  match SEX_PROTEIN_RULE.lookup sex with
  | none => none
  | some lh =>
    let ppk := truthyOr protein_per_kg lh.1
    let protein_g := ppk * weight_kg
    let protein_kcal := protein_g * 4
    let fat_kcal := target_kcal * fat_ratio
    let fat_g := fat_kcal / 9
    let carb_kcal := max 0 (target_kcal - protein_kcal - fat_kcal)
    let carb_g := carb_kcal / 4
    some { target_kcal := pyRound target_kcal
           protein_g := pyRound protein_g
           fat_g := pyRound fat_g
           carb_g := pyRound carb_g
           fat_ratio := fat_ratio
           protein_per_kg := ppk }

/-- ASCII decimal digit test on a code point: the digits the pattern `\d`
matches in the source's texts. -/
def isDigitCp (c : ℕ) : Bool := decide (48 ≤ c ∧ c ≤ 57)

/-- ASCII lower-casing of a code point: the case folding `re.IGNORECASE`
performs on the ASCII letters appearing in the source's keyword lists
(Korean code points are untouched). -/
def lowerCp (c : ℕ) : ℕ := if 65 ≤ c ∧ c ≤ 90 then c + 32 else c

/-- Code points of a string: Python's view of `str`. -/
def strCps (s : String) : List ℕ := s.toList.map Char.toNat

/-- Value of a digit run, most significant digit first. -/
def digitsVal (ds : List ℕ) : ℕ := ds.foldl (fun acc c => acc * 10 + (c - 48)) 0

/-- Python `float(val)` on the dot-normalized matched text: parses
`\d+(\.\d+)?` as a rational and returns `none` on any other shape (the
only shapes the regex group can produce are covered exactly). -/
def parseFloat? (s : List ℕ) : Option ℚ :=
  let intPart := s.takeWhile isDigitCp
  let rest := s.drop intPart.length
  if intPart.isEmpty then none
  else
    match rest with
    | [] => some (digitsVal intPart)
    | c :: frac =>
      if c = 46 ∧ ¬frac.isEmpty ∧ frac.all isDigitCp then
        some (digitsVal intPart + digitsVal frac / 10 ^ frac.length)
      else none

/-- `val.replace(",", ".")` on code points (44 is `,`, 46 is `.`). -/
def normalizeCommas (s : List ℕ) : List ℕ :=
  s.map (fun c => if c = 44 then 46 else c)

/-- Group 1 of the pattern `\D*(\d+(?:[.,]\d+)?)` taken right after the
keyword occurrence: skip the non-digits, take a maximal digit run, then
optionally one `.`/`,` followed by a nonempty maximal digit run. -/
def extractGroup (after : List ℕ) : List ℕ :=
  let afterGap := after.dropWhile (fun c => !isDigitCp c)
  let ds := afterGap.takeWhile isDigitCp
  let rest := afterGap.drop ds.length
  match rest with
  | [] => ds
  | c :: rest2 =>
    if c = 46 ∨ c = 44 then
      let ds2 := rest2.takeWhile isDigitCp
      if ds2.isEmpty then ds else ds ++ c :: ds2
    else ds

/-- The source's whole pattern `kw\D*(\d+(?:[.,]\d+)?)` (compiled with
`re.IGNORECASE`) matches at the head of `text`: the keyword occurs
literally up to ASCII case, with some digit somewhere after it. -/
def patMatchHere (text kw : List ℕ) : Bool :=
  ((text.take kw.length).map lowerCp == kw.map lowerCp) &&
  (text.drop kw.length).any isDigitCp

/-- `re.search` for the source's pattern: scan for the leftmost starting
position where the pattern matches and return group 1 there. -/
def reSearch (text kw : List ℕ) : Option (List ℕ) :=
  match text with
  | [] => none
  | _ :: rest =>
    if patMatchHere text kw then some (extractGroup (text.drop kw.length))
    else reSearch rest kw

/-- One keyword step of `extract_numbers_near_keywords`: search, normalize
the comma, convert with `float`. -/
def findValue (text kw : List ℕ) : Option ℚ :=
  (reSearch text kw).bind (fun g => parseFloat? (normalizeCommas g))

/-- `extract_numbers_near_keywords` from `src/main.py`: keywords are tried
in order; a regex match whose text `float` accepts is returned; otherwise
(no match, or `float` raised and the `except` clause passed) the next
keyword is tried; `None` at the end. -/
def extract_numbers_near_keywords (text : List ℕ) (keywords : List (List ℕ)) :
    Option ℚ :=
  match keywords with
  | [] => none
  | kw :: rest =>
    match findValue text kw with
    | some v => some v
    | none => extract_numbers_near_keywords text rest

/-- `INBODY_KR_KEYS` from `src/main.py`, keyword strings as code points. -/
def INBODY_KR_KEYS : List (String × List (List ℕ)) :=
  [("weight", [strCps "체중", strCps "몸무게", strCps "Weight"]),
   ("smm", [strCps "골격근량", strCps "SMM", strCps "Skeletal Muscle Mass"]),
   ("bfm", [strCps "체지방량", strCps "Body Fat Mass"]),
   ("pbf", [strCps "체지방률", strCps "PBF", strCps "Percent Body Fat"]),
   ("bmr", [strCps "기초대사량", strCps "BMR", strCps "Basal Metabolic Rate"]),
   ("height", [strCps "신장", strCps "키", strCps "Height"])]

/-- `parse_inbody_pdf` from `src/main.py`.  The PyPDF2 backend is external
to the repository; its observable behaviour is the two parameters: whether
the import succeeded (`PYPDF2_AVAILABLE`), and the text produced by the
reader (`none` models any exception while opening or reading the document,
`some txt` the concatenated page text). -/
def parse_inbody_pdf (pypdf2_available : Bool) (pdf_text : Option (List ℕ)) :
    List (String × Option ℚ) :=
  if pypdf2_available = false then INBODY_KR_KEYS.map (fun kv => (kv.1, none))
  else
    match pdf_text with
    | none => INBODY_KR_KEYS.map (fun kv => (kv.1, none))
    | some txt =>
      INBODY_KR_KEYS.map (fun kv => (kv.1, extract_numbers_near_keywords txt kv.2))

/-- The height-normalization branch of the PDF upload path in
`src/main.py` (lines 239–240): a parsed height is used only when truthy
(`if parsed.get("height"):`), and a value not above 3 is taken to be in
metres and scaled to centimetres. -/
def apply_parsed_height (height_cm : ℚ) (parsed_height : Option ℚ) : ℚ :=
  match parsed_height with
  | none => height_cm
  | some h => if h ≠ 0 then (if h > 3 then h else h * 100) else height_cm

/-- The 탄수화물 (carbohydrate) list of the `FOODS` dict in `src/main.py`. -/
def FOODS_carb : List String :=
  ["현미밥", "오트밀", "고구마", "감자", "통밀빵", "쌀국수"]

/-- The 단백질 (protein) list of the `FOODS` dict in `src/main.py`. -/
def FOODS_protein : List String :=
  ["닭가슴살", "계란", "두부", "연어", "대구", "그릭요거트", "프로틴쉐이크"]

/-- The 지방 (fat) list of the `FOODS` dict in `src/main.py`. -/
def FOODS_fat : List String :=
  ["아몬드", "아보카도", "올리브오일", "호두", "땅콩버터"]

/-- One row of the meal table built by `suggest_meals`. -/
structure MealSlot where
  name : String
  protein_g : ℚ
  carb_g : ℚ
  fat_g : ℚ
  foods : List String
deriving DecidableEq, Repr

/-- The fixed `splits` table of `suggest_meals`. -/
def MEAL_SPLITS : List (String × ℚ) :=
  [("아침", 0.30), ("점심", 0.35), ("저녁", 0.25), ("간식", 0.10)]

/-- `suggest_meals` from `src/main.py`; the `np.random.choice` sampling is
abstracted as the injected picker `pick` (spec §9 prescribes exactly this
abstraction of the randomness source). -/
def suggest_meals (pick : List String → String) (macros : MacroPlan) :
    List MealSlot :=
  MEAL_SPLITS.map (fun nr =>
    { name := nr.1
      protein_g := pyRound (MacroPlan.protein_g macros * nr.2)
      carb_g := pyRound (MacroPlan.carb_g macros * nr.2)
      fat_g := pyRound (MacroPlan.fat_g macros * nr.2)
      foods := [pick FOODS_protein, pick FOODS_carb, pick FOODS_fat] })

/-- The 5-session template `templates["A"]` of `training_plan`. -/
def TEMPLATE_A : List (String × String) :=
  [("하체+코어", "스쿼트 변형 4x6-10, 루마니안 데드리프트 3x8-10, 런지 3x10/측, 플랭크 3x45초"),
   ("가슴+삼두", "벤치프레스 4x6-10, 인클라인 덤벨프레스 3x8-12, 케이블 플라이 3x12-15, 로프 푸시다운 3x12-15"),
   ("등+이두", "랫풀다운 4x8-12, 바벨 로우 3x6-10, 시티드 로우 3x10-12, 컬 3x12-15"),
   ("어깨", "오버헤드프레스 4x6-10, 레터럴 레이즈 4x12-20, 리어델트 3x12-20"),
   ("전신(볼륨 낮게)", "데드리프트 3x5, 풀업/보조 3x최대, 딥스/보조 3x최대, 행잉 레그레이즈 3x10-15")]

/-- The 2-session template `templates["B"]` of `training_plan`. -/
def TEMPLATE_B : List (String × String) :=
  [("전신(초보)", "레그프레스 3x10-15, 머신 체스트프레스 3x10-12, 랫풀다운 3x10-12, 레터럴 레이즈 3x15-20, 케이블 컬 2x12-15, 트라이셉스 익스텐션 2x12-15"),
   ("코어+유산소", "하이퍼익스텐션 3x12-15, 케이블 크런치 3x12-15, 사이드 플랭크 3x30초, 인터벌 15-20분")]

/-- The goal-keyed cardio recommendation of `training_plan`. -/
def cardio_for (goal_label : String) : String :=
  if goal_label = "다이어트(감량)" then "저강도 유산소 20-30분(웨이트 후) 주 3-5회"
  else if goal_label = "벌크업(증량)" then "가벼운 컨디셔닝 10-15분, 회복 위주"
  else "선호에 따라 주 2-3회 20분"

/-- `training_plan` from `src/main.py`: the template is chosen by
`days >= 4`, and the cardio row is appended as the last row via
`df.loc[len(df)]`. -/
def training_plan (goal_label : String) (days : ℤ) : List (String × String) :=
  (if days ≥ 4 then TEMPLATE_A else TEMPLATE_B) ++
    [("유산소", cardio_for goal_label)]

/-! ## Helper lemmas -/

/-- Evaluation lemma: below the half point the value rounds down. -/
theorem pyRound_eval (q : ℚ) (n : ℤ) (r : ℚ) (h1 : (n : ℚ) ≤ q)
    (h2 : q - n < 1/2) (h3 : (n : ℚ) = r) : pyRound q = r := by
  have hf : ⌊q⌋ = n := Int.floor_eq_iff.mpr ⟨h1, by linarith⟩
  simp only [pyRound, pyRoundInt, hf]
  rw [if_pos h2, h3]

/-- Evaluation lemma: above the half point the value rounds up. -/
theorem pyRound_eval_high (q : ℚ) (n : ℤ) (r : ℚ) (h1 : (n : ℚ) + 1/2 < q)
    (h2 : q < n + 1) (h3 : (n : ℚ) + 1 = r) : pyRound q = r := by
  have hf : ⌊q⌋ = n := Int.floor_eq_iff.mpr ⟨by linarith, h2⟩
  simp only [pyRound, pyRoundInt, hf]
  rw [if_neg (by linarith), if_pos (by linarith)]
  rw [← h3]
  push_cast
  ring

/-- Evaluation lemma: an exact half with even floor rounds down. -/
theorem pyRound_eval_half_even (q : ℚ) (n : ℤ) (r : ℚ) (h1 : q = n + 1/2)
    (h2 : n % 2 = 0) (h3 : (n : ℚ) = r) : pyRound q = r := by
  have hf : ⌊q⌋ = n := Int.floor_eq_iff.mpr ⟨by rw [h1]; linarith, by rw [h1]; linarith⟩
  simp only [pyRound, pyRoundInt, hf]
  rw [if_neg (by rw [h1]; norm_num), if_neg (by rw [h1]; norm_num), if_pos h2, h3]

/-- Evaluation lemma: an exact half with odd floor rounds up. -/
theorem pyRound_eval_half_odd (q : ℚ) (n : ℤ) (r : ℚ) (h1 : q = n + 1/2)
    (h2 : n % 2 = 1) (h3 : (n : ℚ) + 1 = r) : pyRound q = r := by
  have hf : ⌊q⌋ = n := Int.floor_eq_iff.mpr ⟨by rw [h1]; linarith, by rw [h1]; linarith⟩
  simp only [pyRound, pyRoundInt, hf]
  rw [if_neg (by rw [h1]; norm_num), if_neg (by rw [h1]; norm_num),
    if_neg (by omega)]
  rw [← h3]
  push_cast
  ring

/-- The rounded value never drops below the floor of the argument. -/
theorem floor_le_pyRoundInt (q : ℚ) : ⌊q⌋ ≤ pyRoundInt q := by
  unfold pyRoundInt
  split
  · exact le_refl _
  · split
    · omega
    · split <;> omega

/-- Rounding a nonnegative rational gives a nonnegative result. -/
theorem pyRound_nonneg (q : ℚ) (h : 0 ≤ q) : 0 ≤ pyRound q := by
  have h0 : (0 : ℤ) ≤ ⌊q⌋ := Int.floor_nonneg.mpr h
  have := floor_le_pyRoundInt q
  unfold pyRound
  exact_mod_cast le_trans h0 this

/-- Any integer lower bound on the argument bounds the rounded value. -/
theorem le_pyRound (q : ℚ) (n : ℤ) (h : (n : ℚ) ≤ q) : (n : ℚ) ≤ pyRound q := by
  have h0 : n ≤ ⌊q⌋ := Int.le_floor.mpr h
  have := floor_le_pyRoundInt q
  unfold pyRound
  exact_mod_cast le_trans h0 this

/-- Rounding zero gives zero. -/
theorem pyRound_zero : pyRound 0 = 0 :=
  pyRound_eval 0 0 0 (by norm_num) (by norm_num) (by norm_num)

/-- Unfolding lemma for `plan_macros` when the sex is present in
`SEX_PROTEIN_RULE` (the non-raising path). -/
theorem plan_macros_eq (tdee fr w : ℚ) (g sex : String) (p : Option ℚ)
    (low high : ℚ) (hs : SEX_PROTEIN_RULE.lookup sex = some (low, high)) :
    plan_macros tdee g sex w fr p =
      some { target_kcal := pyRound (max 1000 (tdee + (GOAL_MAP.lookup g).getD 0))
             protein_g := pyRound (truthyOr p low * w)
             fat_g := pyRound (max 1000 (tdee + (GOAL_MAP.lookup g).getD 0) * fr / 9)
             carb_g := pyRound (max 0 (max 1000 (tdee + (GOAL_MAP.lookup g).getD 0)
               - truthyOr p low * w * 4
               - max 1000 (tdee + (GOAL_MAP.lookup g).getD 0) * fr) / 4)
             fat_ratio := fr
             protein_per_kg := truthyOr p low } := by
  simp only [plan_macros, hs]

/-- Full evaluation lemma for `plan_macros` on concrete inputs: all the
intermediate values are supplied as equations. -/
theorem plan_macros_concrete (tdee fr w d low high ppk tk pg fg cg : ℚ)
    (g sex : String) (p : Option ℚ)
    (hd : (GOAL_MAP.lookup g).getD 0 = d)
    (hs : SEX_PROTEIN_RULE.lookup sex = some (low, high))
    (hp : truthyOr p low = ppk)
    (htk : pyRound (max 1000 (tdee + d)) = tk)
    (hpg : pyRound (ppk * w) = pg)
    (hfg : pyRound (max 1000 (tdee + d) * fr / 9) = fg)
    (hcg : pyRound (max 0 (max 1000 (tdee + d) - ppk * w * 4
      - max 1000 (tdee + d) * fr) / 4) = cg) :
    plan_macros tdee g sex w fr p = some ⟨tk, pg, fg, cg, fr, ppk⟩ := by
  rw [plan_macros_eq tdee fr w g sex p low high hs, hd, hp, htk, hpg, hfg, hcg]

/-- Lower-casing a code point is idempotent. -/
theorem lowerCp_idem (c : ℕ) : lowerCp (lowerCp c) = lowerCp c := by
  unfold lowerCp
  split_ifs <;> omega

/-- Lower-casing preserves being a digit. -/
theorem isDigitCp_lowerCp (c : ℕ) : isDigitCp (lowerCp c) = isDigitCp c := by
  unfold lowerCp isDigitCp
  split_ifs with h
  · rw [decide_eq_decide]
    omega
  · rfl

/-- A digit code point is its own lower case. -/
theorem lowerCp_of_isDigitCp (c : ℕ) (h : isDigitCp c = true) : lowerCp c = c := by
  unfold isDigitCp at h
  rw [decide_eq_true_eq] at h
  unfold lowerCp
  rw [if_neg]
  omega

/-- Lower-casing reflects the two separator code points. -/
theorem lowerCp_eq_sep_iff (c s : ℕ) (hs : s = 46 ∨ s = 44) :
    lowerCp c = s ↔ c = s := by
  unfold lowerCp
  split_ifs with h <;> omega

/-- Composition form of `lowerCp_idem`. -/
theorem lowerCp_comp_lowerCp : lowerCp ∘ lowerCp = lowerCp :=
  funext lowerCp_idem

/-- Composition form of `isDigitCp_lowerCp`. -/
theorem isDigitCp_comp_lowerCp : isDigitCp ∘ lowerCp = isDigitCp :=
  funext isDigitCp_lowerCp

/-- Composition form of `isDigitCp_lowerCp` for the negated test. -/
theorem notDigit_comp_lowerCp :
    ((fun c => !isDigitCp c) ∘ lowerCp) = fun c => !isDigitCp c :=
  funext fun c => by simp [Function.comp, isDigitCp_lowerCp]

/-- A run of digits is unchanged by lower-casing. -/
theorem map_lowerCp_takeWhile_digits (l : List ℕ) :
    (l.takeWhile isDigitCp).map lowerCp = l.takeWhile isDigitCp :=
  (List.map_congr_left fun a ha =>
    lowerCp_of_isDigitCp a (List.mem_takeWhile_imp ha)).trans
    (List.map_id _)

/-- The extracted group is invariant under lower-casing the text. -/
theorem extractGroup_map_lowerCp (l : List ℕ) :
    extractGroup (l.map lowerCp) = extractGroup l := by
  simp only [extractGroup, List.dropWhile_map, notDigit_comp_lowerCp,
    List.takeWhile_map, isDigitCp_comp_lowerCp, List.length_map,
    ← List.map_drop, map_lowerCp_takeWhile_digits]
  set ag := l.dropWhile (fun c => !isDigitCp c) with hag
  set ds := ag.takeWhile isDigitCp with hds
  set rest := ag.drop ds.length with hrest
  cases rest with
  | nil => rfl
  | cons c rest2 =>
    simp only [List.map_cons]
    by_cases hc : c = 46 ∨ c = 44
    · have hlc : lowerCp c = c := by
        rcases hc with h | h <;> subst h <;> rfl
      rw [hlc]
      simp only [if_pos hc, List.takeWhile_map, isDigitCp_comp_lowerCp,
        map_lowerCp_takeWhile_digits]
    · have hlc : ¬(lowerCp c = 46 ∨ lowerCp c = 44) := by
        rw [lowerCp_eq_sep_iff c 46 (Or.inl rfl), lowerCp_eq_sep_iff c 44 (Or.inr rfl)]
        exact hc
      rw [if_neg hlc, if_neg hc]

/-- The pattern test is invariant under lower-casing the text. -/
theorem patMatchHere_map_lowerCp (l kw : List ℕ) :
    patMatchHere (l.map lowerCp) kw = patMatchHere l kw := by
  unfold patMatchHere
  rw [← List.map_take, List.map_map, lowerCp_comp_lowerCp, ← List.map_drop,
    List.any_map, isDigitCp_comp_lowerCp]

/-- The pattern test is invariant under lower-casing the keyword. -/
theorem patMatchHere_lower_kw (l kw : List ℕ) :
    patMatchHere l (kw.map lowerCp) = patMatchHere l kw := by
  unfold patMatchHere
  rw [List.length_map, List.map_map, lowerCp_comp_lowerCp]

/-- The regex search is invariant under lower-casing the text. -/
theorem reSearch_map_lowerCp (text kw : List ℕ) :
    reSearch (text.map lowerCp) kw = reSearch text kw := by
  induction text with
  | nil => rfl
  | cons c rest ih =>
    rw [List.map_cons]
    unfold reSearch
    rw [← List.map_cons, patMatchHere_map_lowerCp, ← List.map_drop,
      extractGroup_map_lowerCp, ih]

/-- The regex search is invariant under lower-casing the keyword. -/
theorem reSearch_lower_kw (text kw : List ℕ) :
    reSearch text (kw.map lowerCp) = reSearch text kw := by
  induction text with
  | nil => rfl
  | cons c rest ih =>
    unfold reSearch
    rw [patMatchHere_lower_kw, List.length_map, ih]

/-- The value found for one keyword is invariant under lower-casing the
text. -/
theorem findValue_map_lowerCp (text kw : List ℕ) :
    findValue (text.map lowerCp) kw = findValue text kw := by
  unfold findValue
  rw [reSearch_map_lowerCp]

/-- The value found for one keyword is invariant under lower-casing the
keyword. -/
theorem findValue_lower_kw (text kw : List ℕ) :
    findValue text (kw.map lowerCp) = findValue text kw := by
  unfold findValue
  rw [reSearch_lower_kw]

/-- The keyword loop returns the head of the per-keyword values, in the
priority order of the keyword list. -/
theorem extract_eq_head (text : List ℕ) (kws : List (List ℕ)) :
    extract_numbers_near_keywords text kws =
      (kws.filterMap (fun kw => findValue text kw)).head? := by
  induction kws with
  | nil => rfl
  | cons kw rest ih =>
    unfold extract_numbers_near_keywords
    rw [List.filterMap_cons]
    cases h : findValue text kw with
    | none =>
      simp only [h]
      exact ih
    | some v =>
      simp only [h, List.head?_cons]

/-! ## Claims -/

/-- C6: `extract_numbers_near_keywords` tries the candidate labels in
priority order and returns the first decimal value found after a candidate
occurrence (the per-candidate meaning being `findValue`: leftmost match of
the label followed by the next numeric token, comma normalized to dot,
converted by `float`); it returns `none` exactly when no candidate yields
a value; and the matching is case-insensitive — lower-casing the whole
text, or all the keywords, never changes the result. -/
theorem extract_numbers_contract (text : List ℕ) (kws : List (List ℕ)) :
    extract_numbers_near_keywords text kws =
      (kws.filterMap (fun kw => findValue text kw)).head? ∧
    (extract_numbers_near_keywords text kws = none ↔
      ∀ kw ∈ kws, findValue text kw = none) ∧
    extract_numbers_near_keywords (text.map lowerCp) kws =
      extract_numbers_near_keywords text kws ∧
    extract_numbers_near_keywords text (kws.map (fun kw => kw.map lowerCp)) =
      extract_numbers_near_keywords text kws := by
  refine ⟨extract_eq_head text kws, ?_, ?_, ?_⟩
  · rw [extract_eq_head text kws, List.head?_eq_none_iff,
      List.filterMap_eq_nil_iff]
  · rw [extract_eq_head, extract_eq_head]
    congr 1
    exact List.filterMap_congr fun kw _ => findValue_map_lowerCp text kw
  · rw [extract_eq_head, extract_eq_head, List.filterMap_map]
    congr 1
    exact List.filterMap_congr fun kw _ => findValue_lower_kw text kw

/-- C3: for every weight in [30, 300], height in [120, 220] and age in
[14, 90], `mifflin_st_jeor` is exactly the stated pure linear formula:
10W + 6.25H − 5A + 5 for 남성 (male) and 10W + 6.25H − 5A − 161 for
여성 (female). -/
theorem mifflin_st_jeor_formula (w h a : ℚ)
    (hw : 30 ≤ w ∧ w ≤ 300) (hh : 120 ≤ h ∧ h ≤ 220) (ha : 14 ≤ a ∧ a ≤ 90) :
    mifflin_st_jeor "남성" w h a = 10 * w + 6.25 * h - 5 * a + 5 ∧
    mifflin_st_jeor "여성" w h a = 10 * w + 6.25 * h - 5 * a - 161 := by
  constructor <;> simp [mifflin_st_jeor]

/-- Witness for the C3 theorem at weight 70, height 175, age 28. -/
theorem mifflin_st_jeor_formula_witness :
    mifflin_st_jeor "남성" 70 175 28 = 1658.75 ∧
    mifflin_st_jeor "여성" 70 175 28 = 1492.75 := by
  have h := mifflin_st_jeor_formula 70 175 28 (by norm_num) (by norm_num)
    (by norm_num)
  refine ⟨?_, ?_⟩
  · rw [h.1]
    norm_num
  · rw [h.2]
    norm_num

/-- C5: when the parsing backend is unavailable, or reading the document
raised (any parsing exception), `parse_inbody_pdf` returns the complete
six-field mapping with every field absent, instead of failing. -/
theorem parse_inbody_pdf_degrades (avail : Bool) (txt : Option (List ℕ))
    (h : avail = false ∨ txt = none) :
    parse_inbody_pdf avail txt =
      [("weight", none), ("smm", none), ("bfm", none),
       ("pbf", none), ("bmr", none), ("height", none)] := by
  rcases h with h | h
  · subst h
    simp [parse_inbody_pdf, INBODY_KR_KEYS]
  · subst h
    cases avail <;> simp [parse_inbody_pdf, INBODY_KR_KEYS]

/-- Witness for the C5 theorem: the backend is missing while the document
text would have parsed. -/
theorem parse_inbody_pdf_degrades_witness :
    parse_inbody_pdf false (some (strCps "체중 70.5")) =
      [("weight", none), ("smm", none), ("bfm", none),
       ("pbf", none), ("bmr", none), ("height", none)] :=
  parse_inbody_pdf_degrades false (some (strCps "체중 70.5")) (Or.inl rfl)

/-- C7 counterexample: a parsed height of 0 is ≤ 3, but it is not scaled
×100 — the truthiness guard `if parsed.get("height"):` keeps the previous
height 175 instead of producing 0 × 100 = 0. -/
theorem apply_parsed_height_zero_cex :
    apply_parsed_height 175 (some 0) = 175 ∧ (0 : ℚ) ≤ 3 ∧
    (175 : ℚ) ≠ 0 * 100 := by
  refine ⟨?_, by norm_num, by norm_num⟩
  simp [apply_parsed_height]

/-- C7 amended: every positive parsed height value ≤ 3 is scaled ×100 and
every parsed height value > 3 is used unchanged (a parsed 0 is skipped by
the truthiness guard and leaves the entered height in place). -/
theorem apply_parsed_height_normalizes (cur h : ℚ) (hpos : 0 < h) :
    apply_parsed_height cur (some h) = if h > 3 then h else h * 100 := by
  simp [apply_parsed_height, ne_of_gt hpos]

/-- Witness for the C7 amended theorem: 1.75 becomes 175 and 175 stays
175. -/
theorem apply_parsed_height_normalizes_witness :
    apply_parsed_height 170 (some 1.75) = 175 ∧
    apply_parsed_height 170 (some 175) = 175 := by
  refine ⟨?_, ?_⟩
  · rw [apply_parsed_height_normalizes 170 1.75 (by norm_num)]
    norm_num
  · rw [apply_parsed_height_normalizes 170 175 (by norm_num)]
    norm_num

/-- C8: `suggest_meals` produces exactly the four slots 아침 (breakfast),
점심 (lunch), 저녁 (dinner), 간식 (snack) in this order, assigning each
macro of each slot round(total × r) for r = 0.30, 0.35, 0.25, 0.10, each
slot rounded independently; the slot sums may therefore differ from the
plan totals (witnessed by a plan with protein 6 g whose four protein
shares round to a sum of 7). -/
theorem suggest_meals_slots (pick : List String → String) (m : MacroPlan) :
    suggest_meals pick m =
      [⟨"아침", pyRound (MacroPlan.protein_g m * 0.30),
        pyRound (MacroPlan.carb_g m * 0.30), pyRound (MacroPlan.fat_g m * 0.30),
        [pick FOODS_protein, pick FOODS_carb, pick FOODS_fat]⟩,
       ⟨"점심", pyRound (MacroPlan.protein_g m * 0.35),
        pyRound (MacroPlan.carb_g m * 0.35), pyRound (MacroPlan.fat_g m * 0.35),
        [pick FOODS_protein, pick FOODS_carb, pick FOODS_fat]⟩,
       ⟨"저녁", pyRound (MacroPlan.protein_g m * 0.25),
        pyRound (MacroPlan.carb_g m * 0.25), pyRound (MacroPlan.fat_g m * 0.25),
        [pick FOODS_protein, pick FOODS_carb, pick FOODS_fat]⟩,
       ⟨"간식", pyRound (MacroPlan.protein_g m * 0.10),
        pyRound (MacroPlan.carb_g m * 0.10), pyRound (MacroPlan.fat_g m * 0.10),
        [pick FOODS_protein, pick FOODS_carb, pick FOODS_fat]⟩] ∧
    ((suggest_meals pick ⟨0, 6, 0, 0, 0, 0⟩).map MealSlot.protein_g).sum ≠
      MacroPlan.protein_g ⟨0, 6, 0, 0, 0, 0⟩ := by
  constructor
  · simp [suggest_meals, MEAL_SPLITS]
  · simp only [suggest_meals, MEAL_SPLITS, List.map_cons, List.map_nil,
      List.sum_cons, List.sum_nil]
    rw [pyRound_eval_high (6 * 0.30) 1 2 (by norm_num) (by norm_num) (by norm_num),
      pyRound_eval (6 * 0.35) 2 2 (by norm_num) (by norm_num) (by norm_num),
      pyRound_eval_half_odd (6 * 0.25) 1 2 (by norm_num) (by norm_num) (by norm_num),
      pyRound_eval_high (6 * 0.10) 0 1 (by norm_num) (by norm_num) (by norm_num)]
    norm_num

/-- C9: `training_plan` picks the 5-session template when days ≥ 4 and the
2-session template when days < 4; the returned plan always ends in exactly
one cardio row, labelled 유산소, whose text is one of three fixed strings
selected by the goal. -/
theorem training_plan_shape (goal_label : String) (days : ℤ) :
    (4 ≤ days → training_plan goal_label days =
      TEMPLATE_A ++ [("유산소", cardio_for goal_label)]) ∧
    (days < 4 → training_plan goal_label days =
      TEMPLATE_B ++ [("유산소", cardio_for goal_label)]) ∧
    (training_plan goal_label days).getLast? =
      some ("유산소", cardio_for goal_label) ∧
    (training_plan goal_label days).countP (fun r => r.1 == "유산소") = 1 ∧
    (cardio_for goal_label = "저강도 유산소 20-30분(웨이트 후) 주 3-5회" ∨
     cardio_for goal_label = "가벼운 컨디셔닝 10-15분, 회복 위주" ∨
     cardio_for goal_label = "선호에 따라 주 2-3회 20분") := by
  refine ⟨?_, ?_, ?_, ?_, ?_⟩
  · intro hd
    simp only [training_plan]
    rw [if_pos hd]
  · intro hd
    simp only [training_plan]
    rw [if_neg (by omega : ¬days ≥ 4)]
  · simp only [training_plan]
    split <;> exact List.getLast?_concat _
  · simp only [training_plan]
    rw [List.countP_append]
    have h1 : List.countP (fun r => r.1 == "유산소")
        [(("유산소" : String), cardio_for goal_label)] = 1 := by
      simp [List.countP_cons]
    rw [h1]
    split
    · have h2 : TEMPLATE_A.countP (fun r => r.1 == "유산소") = 0 := by decide
      rw [h2]
    · have h2 : TEMPLATE_B.countP (fun r => r.1 == "유산소") = 0 := by decide
      rw [h2]
  · unfold cardio_for
    split_ifs <;> simp

/-- Witness for the C9 theorem: five requested days select the 5-session
template, three requested days the 2-session one. -/
theorem training_plan_shape_witness :
    training_plan "유지" 5 = TEMPLATE_A ++ [("유산소", cardio_for "유지")] ∧
    training_plan "유지" 3 = TEMPLATE_B ++ [("유산소", cardio_for "유지")] :=
  ⟨(training_plan_shape "유지" 5).1 (by norm_num),
   (training_plan_shape "유지" 3).2.1 (by norm_num)⟩

/-- C1 counterexample: on the sex string "기타" — any string outside
`SEX_PROTEIN_RULE` — `plan_macros` raises `KeyError` (modelled `none`) and
produces no output record, refuting totality over every sex string. -/
theorem plan_macros_unknown_sex_cex :
    plan_macros 2000 "유지" "기타" 70 0.20 none = none := by
  simp [plan_macros, SEX_PROTEIN_RULE, List.lookup]

/-- C1 amended: an activity label outside the activity table falls back to
the 1.55 multiplier; a goal label outside the goal table falls back to a
0 kcal delta (the plan coincides with the 유지 (maintain) plan); and
`plan_macros` produces a complete output record for the two sex strings of
`SEX_PROTEIN_RULE` and every activity/goal label — while a sex string
outside the table raises `KeyError`. -/
theorem calculator_fallbacks (bmr tdee w fr : ℚ) (p : Option ℚ)
    (al g g2 sex : String)
    (ha : ACTIVITY_FACTORS.lookup al = none)
    (hg : GOAL_MAP.lookup g = none)
    (hsex : sex = "남성" ∨ sex = "여성") :
    tdee_from_activity bmr al = bmr * 1.55 ∧
    plan_macros tdee g sex w fr p = plan_macros tdee "유지" sex w fr p ∧
    (plan_macros tdee g2 sex w fr p).isSome = true := by
  have hd : (GOAL_MAP.lookup g).getD 0 = (0 : ℚ) := by rw [hg]; rfl
  have hd2 : (GOAL_MAP.lookup "유지").getD 0 = (0 : ℚ) := rfl
  refine ⟨?_, ?_, ?_⟩
  · unfold tdee_from_activity
    rw [ha]
    rfl
  · rcases hsex with h | h
    · subst h
      rw [plan_macros_eq tdee fr w g "남성" p 1.5 2.0 rfl,
        plan_macros_eq tdee fr w "유지" "남성" p 1.5 2.0 rfl, hd, hd2]
    · subst h
      rw [plan_macros_eq tdee fr w g "여성" p 1.2 1.5 rfl,
        plan_macros_eq tdee fr w "유지" "여성" p 1.2 1.5 rfl, hd, hd2]
  · rcases hsex with h | h
    · subst h
      rw [plan_macros_eq tdee fr w g2 "남성" p 1.5 2.0 rfl]
      rfl
    · subst h
      rw [plan_macros_eq tdee fr w g2 "여성" p 1.2 1.5 rfl]
      rfl

/-- Witness for the C1 amended theorem: unknown activity label "없음",
unknown goal label "없음", valid sex 남성. -/
theorem calculator_fallbacks_witness :
    tdee_from_activity 1000 "없음" = 1000 * 1.55 ∧
    plan_macros 2000 "없음" "남성" 70 (1/5) none =
      plan_macros 2000 "유지" "남성" 70 (1/5) none ∧
    (plan_macros 2000 "벌크업(증량)" "남성" 70 (1/5) none).isSome = true :=
  calculator_fallbacks 1000 2000 70 (1/5) none "없음" "없음" "벌크업(증량)"
    "남성" rfl rfl (Or.inl rfl)

/-- C4 counterexample: at tdee = 1500.3 with goal 유지 the produced
target_kcal is round(1500.3) = 1500, which differs from
max(1000, 1500.3 + 0) = 1500.3: the output field is the rounded value. -/
theorem target_kcal_rounding_cex :
    (plan_macros (15003/10) "유지" "남성" 70 (1/5) (some 1.5)).map
      MacroPlan.target_kcal = some 1500 ∧
    max 1000 ((15003 : ℚ)/10 + 0) ≠ 1500 := by
  constructor
  · rw [plan_macros_eq (15003/10) (1/5) 70 "유지" "남성" (some 1.5) 1.5 2.0 rfl]
    rw [show (GOAL_MAP.lookup "유지").getD 0 = (0 : ℚ) from rfl]
    simp only [Option.map_some']
    have hv : pyRound (max 1000 ((15003 : ℚ)/10 + 0)) = 1500 :=
      pyRound_eval _ 1500 _ (by norm_num) (by norm_num) (by norm_num)
    rw [hv]
  · norm_num

/-- C4 amended: the target_kcal field produced by `plan_macros` equals
round(max(1000, tdee + goal_delta)) (round half to even) and is therefore
never below 1000, regardless of how negative the goal delta or how small
the tdee. -/
theorem target_kcal_floor (tdee fr w : ℚ) (g sex : String) (p : Option ℚ)
    (r : MacroPlan) (hr : plan_macros tdee g sex w fr p = some r) :
    r.target_kcal = pyRound (max 1000 (tdee + (GOAL_MAP.lookup g).getD 0)) ∧
    1000 ≤ r.target_kcal := by
  rcases hlk : SEX_PROTEIN_RULE.lookup sex with _ | lh
  · simp only [plan_macros, hlk] at hr
    exact Option.noConfusion hr
  · obtain ⟨low, high⟩ := lh
    rw [plan_macros_eq tdee fr w g sex p low high hlk] at hr
    have hr2 := Option.some.inj hr
    subst hr2
    constructor
    · rfl
    · have h1 : ((1000 : ℤ) : ℚ) ≤ max 1000 (tdee + (GOAL_MAP.lookup g).getD 0) := by
        push_cast
        exact le_max_left _ _
      have h2 := le_pyRound _ 1000 h1
      have h3 : MacroPlan.target_kcal
          { target_kcal := pyRound (max 1000 (tdee + (GOAL_MAP.lookup g).getD 0))
            protein_g := pyRound (truthyOr p low * w)
            fat_g := pyRound (max 1000 (tdee + (GOAL_MAP.lookup g).getD 0) * fr / 9)
            carb_g := pyRound (max 0 (max 1000 (tdee + (GOAL_MAP.lookup g).getD 0)
              - truthyOr p low * w * 4
              - max 1000 (tdee + (GOAL_MAP.lookup g).getD 0) * fr) / 4)
            fat_ratio := fr
            protein_per_kg := truthyOr p low } =
          pyRound (max 1000 (tdee + (GOAL_MAP.lookup g).getD 0)) := rfl
      rw [h3]
      exact_mod_cast h2

/-- Witness for the C4 amended theorem at tdee 2000, goal 유지. -/
theorem target_kcal_floor_witness :
    MacroPlan.target_kcal ⟨2000, 105, 44, 295, 1/5, 1.5⟩ =
      pyRound (max 1000 (2000 + (GOAL_MAP.lookup "유지").getD 0)) ∧
    (1000 : ℚ) ≤ MacroPlan.target_kcal ⟨2000, 105, 44, 295, 1/5, 1.5⟩ :=
  target_kcal_floor 2000 (1/5) 70 "유지" "남성" (some 1.5) _
    (plan_macros_concrete 2000 (1/5) 70 0 1.5 2.0 1.5 2000 105 44 295
      "유지" "남성" (some 1.5) rfl rfl (by norm_num [truthyOr])
      (pyRound_eval _ 2000 _ (by norm_num) (by norm_num) (by norm_num))
      (pyRound_eval _ 105 _ (by norm_num) (by norm_num) (by norm_num))
      (pyRound_eval _ 44 _ (by norm_num) (by norm_num) (by norm_num))
      (pyRound_eval _ 295 _ (by norm_num) (by norm_num) (by norm_num)))

/-- C2 counterexample: weight 300, protein 2 g/kg (within the male bound
pair), fat_ratio 0.20, tdee 0: the returned plan has protein calories
600 × 4 = 2400 and fat calories 1000 × 0.20 = 200, together 2600, which
exceeds the target 1000 — protein + fat calories are not bounded by
target_kcal (the carbohydrate share clamps to 0 instead). -/
theorem protein_fat_exceed_target_cex :
    plan_macros 0 "유지" "남성" 300 (1/5) (some 2) =
      some ⟨1000, 600, 22, 0, 1/5, 2⟩ ∧
    ¬(600 * 4 + 1000 * (1/5 : ℚ) ≤ 1000) ∧
    (30 : ℚ) ≤ 300 ∧ (300 : ℚ) ≤ 300 ∧ (1.5 : ℚ) ≤ 2 ∧ (2 : ℚ) ≤ 2 ∧
    (0.15 : ℚ) ≤ 1/5 ∧ (1/5 : ℚ) ≤ 0.30 := by
  refine ⟨?_, by norm_num, by norm_num, by norm_num, by norm_num, by norm_num,
    by norm_num, by norm_num⟩
  exact plan_macros_concrete 0 (1/5) 300 0 1.5 2.0 2 1000 600 22 0 "유지"
    "남성" (some 2) rfl rfl (by norm_num [truthyOr])
    (pyRound_eval _ 1000 _ (by norm_num) (by norm_num) (by norm_num))
    (pyRound_eval _ 600 _ (by norm_num) (by norm_num) (by norm_num))
    (pyRound_eval _ 22 _ (by norm_num) (by norm_num) (by norm_num))
    (pyRound_eval _ 0 _ (by norm_num) (by norm_num) (by norm_num))

/-- The protein lower bound of every `SEX_PROTEIN_RULE` entry is at least
1.2 g/kg. -/
theorem sex_rule_low_ge (sex : String) (low high : ℚ)
    (hs : SEX_PROTEIN_RULE.lookup sex = some (low, high)) : 1.2 ≤ low := by
  simp only [SEX_PROTEIN_RULE, List.lookup] at hs
  cases h1 : (sex == "남성")
  · simp only [h1] at hs
    cases h2 : (sex == "여성")
    · simp only [h2] at hs
      exact Option.noConfusion hs
    · simp only [h2] at hs
      have h3 : (1.2 : ℚ) = low := congrArg Prod.fst (Option.some.inj hs)
      rw [← h3]
  · simp only [h1] at hs
    have h3 : (1.5 : ℚ) = low := congrArg Prod.fst (Option.some.inj hs)
    rw [← h3]
    norm_num

/-- C2 amended: the carbohydrate share is clamped at zero: carb_g is never
negative, and whenever protein_kcal + fat_kcal alone reach or exceed
target_kcal, carb_g is exactly 0 (protein + fat calories themselves can
exceed target_kcal; only the carbohydrate remainder is clamped). -/
theorem carb_clamped (tdee fr w ppk low high : ℚ) (g sex : String)
    (hs : SEX_PROTEIN_RULE.lookup sex = some (low, high))
    (hw : 30 ≤ w) (hw2 : w ≤ 300) (hpk : low ≤ ppk) (hpk2 : ppk ≤ high)
    (hfr : 0.15 ≤ fr) (hfr2 : fr ≤ 0.30) (r : MacroPlan)
    (hr : plan_macros tdee g sex w fr (some ppk) = some r) :
    0 ≤ r.carb_g ∧
    (max 1000 (tdee + (GOAL_MAP.lookup g).getD 0) ≤
        ppk * w * 4 + max 1000 (tdee + (GOAL_MAP.lookup g).getD 0) * fr →
      r.carb_g = 0) := by
  have hlow := sex_rule_low_ge sex low high hs
  have hne : ppk ≠ 0 := ne_of_gt (by linarith)
  have hppk : truthyOr (some ppk) low = ppk := by simp [truthyOr, hne]
  rw [plan_macros_eq tdee fr w g sex (some ppk) low high hs, hppk] at hr
  have hr2 := Option.some.inj hr
  subst hr2
  dsimp only
  constructor
  · exact pyRound_nonneg _ (div_nonneg (le_max_left 0 _) (by norm_num))
  · intro hle
    rw [max_eq_left (by linarith), zero_div, pyRound_zero]

/-- Witness for the C2 amended theorem at the clamping input of the
counterexample. -/
theorem carb_clamped_witness :
    0 ≤ MacroPlan.carb_g ⟨1000, 600, 22, 0, 1/5, 2⟩ ∧
    (max 1000 ((0 : ℚ) + (GOAL_MAP.lookup "유지").getD 0) ≤
        2 * 300 * 4 + max 1000 ((0 : ℚ) + (GOAL_MAP.lookup "유지").getD 0) * (1/5) →
      MacroPlan.carb_g ⟨1000, 600, 22, 0, 1/5, 2⟩ = 0) :=
  carb_clamped 0 (1/5) 300 2 1.5 2.0 "유지" "남성" rfl (by norm_num)
    (by norm_num) (by norm_num) (by norm_num) (by norm_num) (by norm_num) _
    (plan_macros_concrete 0 (1/5) 300 0 1.5 2.0 2 1000 600 22 0 "유지"
      "남성" (some 2) rfl rfl (by norm_num [truthyOr])
      (pyRound_eval _ 1000 _ (by norm_num) (by norm_num) (by norm_num))
      (pyRound_eval _ 600 _ (by norm_num) (by norm_num) (by norm_num))
      (pyRound_eval _ 22 _ (by norm_num) (by norm_num) (by norm_num))
      (pyRound_eval _ 0 _ (by norm_num) (by norm_num) (by norm_num)))

/-- C10 counterexample: at weight 0.1 kg (> 0) with protein_per_kg = 0 the
fallback 1.2 g/kg applies, but protein_g = round(1.2 × 0.1) = round(0.12)
is 0: a caller supplying protein_per_kg = 0 does receive protein_g = 0 for
this positive weight. -/
theorem ppk_zero_weight_cex :
    plan_macros 2000 "유지" "여성" (1/10) (1/5) (some 0) =
      some ⟨2000, 0, 44, 400, 1/5, 1.2⟩ ∧
    (0 : ℚ) < 1/10 := by
  refine ⟨?_, by norm_num⟩
  exact plan_macros_concrete 2000 (1/5) (1/10) 0 1.2 1.5 1.2 2000 0 44 400
    "유지" "여성" (some 0) rfl rfl (by norm_num [truthyOr])
    (pyRound_eval _ 2000 _ (by norm_num) (by norm_num) (by norm_num))
    (pyRound_eval _ 0 _ (by norm_num) (by norm_num) (by norm_num))
    (pyRound_eval _ 44 _ (by norm_num) (by norm_num) (by norm_num))
    (pyRound_eval_high _ 399 _ (by norm_num) (by norm_num) (by norm_num))

/-- C10 amended: supplying protein_per_kg = 0 behaves exactly like
omitting it (Python falsiness): the sex lower bound is used, the returned
protein_per_kg equals that lower bound and is strictly positive, and for
every weight in the documented range [30, 300] the returned protein_g is
strictly positive. -/
theorem ppk_fallback (tdee fr w low high : ℚ) (g sex : String)
    (hs : SEX_PROTEIN_RULE.lookup sex = some (low, high))
    (hw : 30 ≤ w) (hw2 : w ≤ 300) (r : MacroPlan)
    (hr : plan_macros tdee g sex w fr (some 0) = some r) :
    plan_macros tdee g sex w fr (some 0) = plan_macros tdee g sex w fr none ∧
    r.protein_per_kg = low ∧ 0 < r.protein_per_kg ∧ 0 < r.protein_g := by
  have hlow := sex_rule_low_ge sex low high hs
  have hp0 : truthyOr (some 0) low = low := by simp [truthyOr]
  have hpn : truthyOr none low = low := rfl
  rw [plan_macros_eq tdee fr w g sex (some 0) low high hs, hp0] at hr
  have hr2 := Option.some.inj hr
  subst hr2
  refine ⟨?_, rfl, by dsimp only; linarith, ?_⟩
  · rw [plan_macros_eq tdee fr w g sex (some 0) low high hs,
      plan_macros_eq tdee fr w g sex none low high hs, hp0, hpn]
  · dsimp only
    have h36 : (36 : ℚ) ≤ low * w := by nlinarith
    have h1 := le_pyRound (low * w) 1 (by push_cast; linarith)
    push_cast at h1
    linarith

/-- Witness for the C10 amended theorem at weight 70, sex 여성. -/
theorem ppk_fallback_witness :
    plan_macros 2000 "유지" "여성" 70 (1/5) (some 0) =
      plan_macros 2000 "유지" "여성" 70 (1/5) none ∧
    MacroPlan.protein_per_kg ⟨2000, 84, 44, 316, 1/5, 1.2⟩ = 1.2 ∧
    0 < MacroPlan.protein_per_kg ⟨2000, 84, 44, 316, 1/5, 1.2⟩ ∧
    0 < MacroPlan.protein_g ⟨2000, 84, 44, 316, 1/5, 1.2⟩ :=
  ppk_fallback 2000 (1/5) 70 1.2 1.5 "유지" "여성" rfl (by norm_num)
    (by norm_num) _
    (plan_macros_concrete 2000 (1/5) 70 0 1.2 1.5 1.2 2000 84 44 316
      "유지" "여성" (some 0) rfl rfl (by norm_num [truthyOr])
      (pyRound_eval _ 2000 _ (by norm_num) (by norm_num) (by norm_num))
      (pyRound_eval _ 84 _ (by norm_num) (by norm_num) (by norm_num))
      (pyRound_eval _ 44 _ (by norm_num) (by norm_num) (by norm_num))
      (pyRound_eval _ 316 _ (by norm_num) (by norm_num) (by norm_num)))

end Workout
